import Mathlib

/-!
Verification of the DANR resource-perturbation engine
(danr-zygisk/jni: the five stress generators, the orchestrator and the
persistent CPU-frequency throttle controller).

Every definition in this file is a shallow embedding of a function of the
C++ source, translated line by line; machine `long`/`int` values become
`Int`, `size_t` byte counts become `Nat`-free `Int` arithmetic carried out
with the same expressions the source uses, and the sysfs / proc
filesystem, the external `tc` tool and the clock become explicit
parameters.  Fallible OS effects (which `tc` invocation succeeds, whether
a directory exists) are oracle fields of an environment record, so that
each code path of the source is reachable for some environment.
-/

namespace DANR

/-! ## String helpers

`std::stol` (on the trimmed, digit-only strings the sysfs files hold),
`std::string::find` of a single character, and `strstr`, modelled over the
character list of a `String` so that every use kernel-evaluates. -/

/-- Accumulating decimal parse of a leading digit run, stopping at the
first non-digit, exactly as `std::stol` consumes its input. -/
def parseNatAcc : Nat → List Char → Nat
  | acc, [] => acc
  | acc, c :: cs => if c.isDigit then parseNatAcc (acc * 10 + (c.toNat - 48)) cs else acc

/-- Embedding of `std::stol` on an optionally `-`-signed digit string; the sources only
call it on trimmed sysfs contents and guard the empty string themselves. -/
def stolChars : List Char → Int
  | '-' :: cs => - (parseNatAcc 0 cs : Int)
  | cs => (parseNatAcc 0 cs : Int)

/-- Embedding of `std::stol` lifted to `String`. -/
def stol (s : String) : Int := stolChars s.data

/-- Embedding of `value.find('1') != npos`: whether a character occurs in a string. -/
def hasChar (c : Char) : List Char → Bool
  | [] => false
  | d :: ds => d = c || hasChar c ds

/-- Whether `p` is an initial run of `s` (helper for `strstr`). -/
def startsWith : List Char → List Char → Bool
  | [], _ => true
  | _ :: _, [] => false
  | p :: ps, s :: ss => p = s && startsWith ps ss

/-- Embedding of `strstr`: whether `p` occurs as a contiguous run inside the string. -/
def hasSub (p : List Char) : List Char → Bool
  | [] => startsWith p []
  | s :: ss => startsWith p (s :: ss) || hasSub p ss

/-! ## The sysfs model

Both `ThermalStressor` and `CPUFreqManager` address per-core control files
through path strings of exactly five shapes,
`/sys/devices/system/cpu/cpu<N>/online` and
`/sys/devices/system/cpu/cpu<N>/cpufreq/{scaling_governor, scaling_max_freq,
cpuinfo_max_freq, cpuinfo_min_freq}`.  Distinct shapes or core numbers give
distinct strings, so the paths are embedded as a structured key type; a
file's trimmed content is a `String`, with `""` standing for an
unreadable/absent file exactly as `readSysFile` returns `""` there. -/

/-- The five per-core sysfs paths the sources construct. -/
inductive SysKey
  | online (cpu : Nat)
  | governor (cpu : Nat)
  | scalingMax (cpu : Nat)
  | cpuinfoMax (cpu : Nat)
  | cpuinfoMin (cpu : Nat)
  deriving DecidableEq, Repr

/-- The sysfs contents: trimmed first line of each control file. -/
def Sysfs : Type := SysKey → String

/-- Embedding of `readSysFile`: trimmed content, `""` when the file cannot be read. -/
def readSysFile (fs : Sysfs) (k : SysKey) : String := fs k

/-- Embedding of `writeSysFile`: overwrite one control file (restoration failures are
logged and ignored by the sources, so the write is modelled as total). -/
def writeSysFile (k : SysKey) (v : String) (fs : Sysfs) : Sysfs :=
  fun k2 => if k2 = k then v else fs k2

/-! ## The `originalSettings_` map

`std::map<std::string, std::string>` with overwrite-on-insert; iteration
order is irrelevant to the theorems because keys are unique, which the
embedding keeps as an invariant of `insertS`. -/

/-- An `originalSettings_` snapshot: association list with unique keys. -/
abbrev Settings : Type := List (SysKey × String)

/-- Embedding of `map[k] = v`: replace the binding of `k`, or append a new one. -/
def insertS : Settings → SysKey → String → Settings
  | [], k, v => [(k, v)]
  | (k2, v2) :: rest, k, v =>
    if k2 = k then (k, v) :: rest else (k2, v2) :: insertS rest k v

/-- Embedding of `map.find(k)`. -/
def lookupS : Settings → SysKey → Option String
  | [], _ => none
  | (k2, v2) :: rest, k => if k2 = k then some v2 else lookupS rest k

/-- Whether a key is bound in a settings map. -/
def hasKey : Settings → SysKey → Bool
  | [], _ => false
  | (k2, _) :: rest, k => k2 = k || hasKey rest k

/-- Key uniqueness invariant of `std::map`. -/
def noDupKeys : Settings → Prop
  | [] => True
  | (k2, _) :: rest => hasKey rest k2 = false ∧ noDupKeys rest

/-- The restore loops of `ThermalStressor::restoreSettings` and
`CPUFreqManager::restore`: write every saved value back. -/
def restoreAll (s : Settings) (fs : Sysfs) : Sysfs :=
  s.foldl (fun f kv => writeSysFile kv.1 kv.2 f) fs

/-! ## Stressor lifecycle base (`stressor_base.cpp`)

The shared state fields `running_`, `startTimeMs_`, `durationMs_` are
carried inside each generator's state record; the clock
(`getCurrentTimeMs`) is an explicit `now` parameter. -/

/-- The snapshot returned by every generator's `getStatus`; `data` is the
type-specific string map (listed in the insertion order of the source). -/
structure StressStatus where
  type : String
  isRunning : Bool
  remainingTimeMs : Int
  data : List (String × String)
  deriving DecidableEq

namespace StressorBase

/-- Embedding of `StressorBase::getRemainingTimeMs`: 0 when idle, otherwise the
positive part of `durationMs - (now - startTimeMs)`. -/
def getRemainingTimeMs (running : Bool) (startTimeMs durationMs now : Int) : Int :=
  if ¬ running then 0
  else
    let elapsed := now - startTimeMs
    let remaining := durationMs - elapsed
    if remaining > 0 then remaining else 0

end StressorBase

/-! ## CPU generator (`cpu_stressor.cpp`) -/

structure CPUStressConfig where
  threadCount : Int
  loadPercentage : Int
  durationMs : Int
  pinToCores : Bool
  targetCores : List Int
  deriving DecidableEq

structure CPUStressorState where
  running : Bool
  startTimeMs : Int
  durationMs : Int
  config : CPUStressConfig
  /-- live (joinable) entries of `workerThreads_` -/
  workerThreads : Nat
  totalOpsCompleted : Int
  deriving DecidableEq

namespace CPUStressor

/-- Embedding of `CPUStressor::start(config)`: refuse when running, otherwise store the
config, arm the duration/start-time, zero the counter and spawn
`threadCount` workers (`for (int i = 0; i < config.threadCount; i++)`,
so a non-positive count spawns none). -/
def start (now : Int) (config : CPUStressConfig) (s : CPUStressorState) :
    Bool × CPUStressorState :=
  if s.running then (false, s)
  else
    (true,
     { s with
         config := config,
         durationMs := config.durationMs,
         startTimeMs := now,
         running := true,
         totalOpsCompleted := 0,
         workerThreads := config.threadCount.toNat })

/-- One `thread.join()` performed by `CPUStressor::stop`. -/
inductive CPUAction
  | joinThread (i : Nat)
  deriving DecidableEq

/-- Embedding of `CPUStressor::stop`: mark stopped when it was running, join every
joinable worker unconditionally, clear the thread list. -/
def stop (s : CPUStressorState) : CPUStressorState × List CPUAction :=
  let s1 := if s.running then { s with running := false } else s
  ({ s1 with workerThreads := 0 },
   (List.range s.workerThreads).map CPUAction.joinThread)

/-- Embedding of `CPUStressor::getStatus`. -/
def getStatus (now : Int) (s : CPUStressorState) : StressStatus :=
  { type := "cpu", isRunning := s.running,
    remainingTimeMs :=
      StressorBase.getRemainingTimeMs s.running s.startTimeMs s.durationMs now,
    data :=
      if s.running then
        [("threadCount", toString s.config.threadCount),
         ("loadPercentage", toString s.config.loadPercentage),
         ("opsCompleted", toString s.totalOpsCompleted)]
      else [] }

end CPUStressor

/-! ## Memory generator (`memory_stressor.cpp`)

Raw regions are identified by an abstract id (`Nat`); the two worker
phases differ only in when they allocate, and every successful allocation
performs the same bookkeeping (`allocations_.push_back(ptr)` then
`allocatedBytes_ += chunkSize`), embedded as `allocStep`. -/

structure MemoryStressConfig where
  targetFreeMB : Int
  chunkSizeMB : Int
  durationMs : Int
  useAnonymousMmap : Bool
  lockMemory : Bool
  deriving DecidableEq

structure MemoryStressorState where
  running : Bool
  startTimeMs : Int
  durationMs : Int
  config : MemoryStressConfig
  workerJoinable : Bool
  /-- the `allocations_` ownership list, in push order -/
  allocations : List Nat
  allocatedBytes : Int
  deriving DecidableEq

namespace MemoryStressor

/-- Embedding of `static_cast<size_t>(config.chunkSizeMB) * 1024 * 1024`, the chunk
size used both when allocating and when releasing. -/
def chunkSizeBytes (cfg : MemoryStressConfig) : Int := cfg.chunkSizeMB * 1024 * 1024

/-- Embedding of `MemoryStressor::start(config)`. -/
def start (now : Int) (config : MemoryStressConfig) (s : MemoryStressorState) :
    Bool × MemoryStressorState :=
  if s.running then (false, s)
  else
    (true,
     { s with
         config := config,
         durationMs := config.durationMs,
         startTimeMs := now,
         running := true,
         allocatedBytes := 0,
         workerJoinable := true })

/-- One successful allocation iteration of either worker phase: push the
chunk, then add `chunkSize` to the byte counter. -/
def allocStep (r : Nat) (s : MemoryStressorState) : MemoryStressorState :=
  { s with allocations := s.allocations ++ [r],
           allocatedBytes := s.allocatedBytes + chunkSizeBytes s.config }

/-- The externally visible steps of `MemoryStressor::releaseMemory`. -/
inductive MemEvent
  /-- Embedding of `toFree = std::move(allocations_); allocations_.clear(); allocatedBytes_ = 0` -/
  | moveAndClear
  | munlockRegion (r : Nat)
  /-- Embedding of `munmap` or `free`, depending on `useAnonymousMmap` -/
  | releaseRegion (r : Nat)
  deriving DecidableEq

/-- The per-region loop of `releaseMemory`, in list order. -/
def releaseEvents (lock : Bool) : List Nat → List MemEvent
  | [] => []
  | r :: rs =>
    (if lock then [MemEvent.munlockRegion r] else []) ++
      (MemEvent.releaseRegion r :: releaseEvents lock rs)

/-- Embedding of `MemoryStressor::releaseMemory`: move the list out and clear the
bookkeeping under the lock, then release every moved-out region. -/
def releaseMemory (s : MemoryStressorState) : MemoryStressorState × List MemEvent :=
  let toFree := s.allocations
  ({ s with allocations := [], allocatedBytes := 0 },
   MemEvent.moveAndClear :: releaseEvents s.config.lockMemory toFree)

/-- Embedding of `MemoryStressor::stop`: mark stopped when it was running, join the
worker unconditionally, then release. -/
def stop (s : MemoryStressorState) : MemoryStressorState × List MemEvent :=
  let s1 := if s.running then { s with running := false } else s
  releaseMemory { s1 with workerJoinable := false }

/-- The regions released by a trace, in release order. -/
def releasedRegions : List MemEvent → List Nat
  | [] => []
  | MemEvent.releaseRegion r :: rest => r :: releasedRegions rest
  | _ :: rest => releasedRegions rest

/-- Bytes released by a trace: each region release returns `chunkSize`
bytes (`munmap(ptr, chunkSize)` / the `chunkSize`-sized `free`). -/
def releasedBytes (cfg : MemoryStressConfig) (tr : List MemEvent) : Int :=
  ((releasedRegions tr).length : Int) * chunkSizeBytes cfg

/-- Whether some region release occurs in the trace. -/
def anyRelease : List MemEvent → Bool
  | [] => false
  | MemEvent.releaseRegion _ :: _ => true
  | _ :: rest => anyRelease rest

/-- Whether every region release precedes every clearing of the
allocation list. -/
def releasesPrecedeClear : List MemEvent → Bool
  | [] => true
  | MemEvent.moveAndClear :: rest => !(anyRelease rest) && releasesPrecedeClear rest
  | _ :: rest => releasesPrecedeClear rest

/-- Embedding of `MemoryStressor::getStatus` (the live available-memory probe is an
explicit parameter). -/
def getStatus (now availableMB : Int) (s : MemoryStressorState) : StressStatus :=
  { type := "memory", isRunning := s.running,
    remainingTimeMs :=
      StressorBase.getRemainingTimeMs s.running s.startTimeMs s.durationMs now,
    data :=
      if s.running then
        [("allocatedMB", toString (Int.tdiv s.allocatedBytes (1024 * 1024))),
         ("targetFreeMB", toString s.config.targetFreeMB),
         ("availableMB", toString availableMB)]
      else [] }

/-- The states a single run can reach between `start` and the release on
stop: a successful start from an idle, fully released state, followed by
any number of recorded allocations from either phase. -/
inductive Reachable : MemoryStressorState → Prop
  | started (now : Int) (cfg : MemoryStressConfig) (s0 : MemoryStressorState)
      (h0 : s0.running = false) (ha : s0.allocations = []) :
      Reachable (start now cfg s0).2
  | alloc (r : Nat) (s : MemoryStressorState) (h : Reachable s) :
      Reachable (allocStep r s)

end MemoryStressor

/-! ## Disk generator (`disk_stressor.cpp`) -/

structure DiskStressConfig where
  throughputMBps : Int
  chunkSizeKB : Int
  durationMs : Int
  testPath : String
  useDirectIO : Bool
  syncWrites : Bool
  deriving DecidableEq

structure DiskStressorState where
  running : Bool
  startTimeMs : Int
  durationMs : Int
  config : DiskStressConfig
  workerJoinable : Bool
  bytesWritten : Int
  bytesRead : Int
  deriving DecidableEq

/-- Filesystem oracle for `DiskStressor::start`: `pathStat p` is
`some true` for an existing directory, `some false` for an existing
non-directory, `none` when `stat` fails (path absent); `mkdirOk p` is
whether `mkdir(p, 0755)` would succeed. -/
structure DiskEnv where
  pathStat : String → Option Bool
  mkdirOk : String → Bool

namespace DiskStressor

/-- Embedding of `DiskStressor::ensureDirectory`: an existing path qualifies iff it is
a directory; an absent path qualifies iff it can be created. -/
def ensureDirectory (env : DiskEnv) (path : String) : Bool :=
  match env.pathStat path with
  | some isDir => isDir
  | none => env.mkdirOk path

/-- Embedding of `DiskStressor::start(config)`: the config is stored *before*
`ensureDirectory` is consulted, so a directory failure still leaves the
new config behind. -/
def start (env : DiskEnv) (now : Int) (config : DiskStressConfig)
    (s : DiskStressorState) : Bool × DiskStressorState :=
  if s.running then (false, s)
  else
    let s1 := { s with config := config }
    if ¬ ensureDirectory env config.testPath then (false, s1)
    else
      (true,
       { s1 with
           durationMs := config.durationMs,
           startTimeMs := now,
           running := true,
           bytesWritten := 0,
           bytesRead := 0,
           workerJoinable := true })

/-- The `strstr(name, "stress_") && strstr(name, ".tmp")` filter of
`DiskStressor::cleanup`. -/
def isStressTmpName (name : String) : Bool :=
  hasSub "stress_".data name.data && hasSub ".tmp".data name.data

/-- Embedding of `DiskStressor::cleanup`: unlink every matching entry of the test
directory, whose listing is the `files` parameter. -/
def cleanup (files : List String) : List String :=
  files.filter (fun n => !(isStressTmpName n))

/-- Embedding of `DiskStressor::stop`: mark stopped when it was running, join the
worker unconditionally, clean up; second component is the directory
afterwards, third the names unlinked by this call. -/
def stop (s : DiskStressorState) (files : List String) :
    DiskStressorState × List String × List String :=
  let s1 := if s.running then { s with running := false } else s
  ({ s1 with workerJoinable := false },
   cleanup files, files.filter isStressTmpName)

/-- Embedding of `DiskStressor::getStatus`. -/
def getStatus (now : Int) (s : DiskStressorState) : StressStatus :=
  { type := "disk_io", isRunning := s.running,
    remainingTimeMs :=
      StressorBase.getRemainingTimeMs s.running s.startTimeMs s.durationMs now,
    data :=
      if s.running then
        [("bytesWrittenMB", toString (Int.tdiv s.bytesWritten (1024 * 1024))),
         ("bytesReadMB", toString (Int.tdiv s.bytesRead (1024 * 1024))),
         ("throughputMBps", toString s.config.throughputMBps)]
      else [] }

end DiskStressor

/-! ## Network generator (`network_stressor.cpp`)

Queuing rules installed on the target interface are tracked as a list;
`tc qdisc del dev I root` removes the root qdisc and with it every child,
i.e. clears the list.  The success of each `tc ... add` invocation is an
oracle field of `TcEnv`, and a failed add installs nothing. -/

structure NetworkStressConfig where
  bandwidthLimitKbps : Int
  latencyMs : Int
  packetLossPercent : Int
  durationMs : Int
  targetInterface : String
  deriving DecidableEq

/-- A queuing-discipline element installed by `applyTcRules`. -/
inductive TcRule
  /-- Embedding of `tc qdisc add dev I root handle 1: htb default 12` -/
  | rootHtb
  /-- Embedding of `tc class add dev I parent 1: classid 1:12 htb rate R ceil R` -/
  | htbClass (rateKbps : Int)
  /-- Embedding of `tc qdisc add dev I [parent 1:12 handle 10: | root] netem ...` -/
  | netem (asChildOfHtb : Bool) (delayMs lossPct : Int)
  deriving DecidableEq

/-- Outcome oracle for the external `tc` tool. -/
structure TcEnv where
  tcAvailable : Bool
  addRootHtbOk : Bool
  addHtbClassOk : Bool
  addNetemOk : Bool
  deriving DecidableEq

/-- A `tc` invocation performed through `executeCommand`. -/
inductive TcCmd
  | add (r : TcRule) (succeeded : Bool)
  | del
  deriving DecidableEq

structure NetworkStressorState where
  running : Bool
  startTimeMs : Int
  durationMs : Int
  config : NetworkStressConfig
  tcRulesApplied : Bool
  workerJoinable : Bool
  deriving DecidableEq

namespace NetworkStressor

/-- Embedding of `NetworkStressor::removeTcRules`: **early-returns without touching the
interface when `tcRulesApplied_` is false**; otherwise deletes the root
qdisc (and so every installed rule) and clears the flag. -/
def removeTcRules (s : NetworkStressorState) (rules : List TcRule) :
    NetworkStressorState × List TcRule × List TcCmd :=
  if ¬ s.tcRulesApplied then (s, rules, [])
  else ({ s with tcRulesApplied := false }, [], [TcCmd.del])

/-- Embedding of `NetworkStressor::applyTcRules`, line by line: initial idempotent
remove; nothing-to-do case; root-htb add (plain `return false` on
failure); htb-class add and netem add (each followed by a `removeTcRules()`
call on failure — a call that is a no-op, since `tcRulesApplied_` is still
false at that point). -/
def applyTcRules (env : TcEnv) (s0 : NetworkStressorState) (rules0 : List TcRule) :
    Bool × NetworkStressorState × List TcRule × List TcCmd :=
  let bw := s0.config.bandwidthLimitKbps
  let lat := s0.config.latencyMs
  let loss := s0.config.packetLossPercent
  let (s1, rules1, c1) := removeTcRules s0 rules0
  if bw = 0 ∧ lat = 0 ∧ loss = 0 then
    (true, { s1 with tcRulesApplied := true }, rules1, c1)
  else
    if bw > 0 ∧ ¬ env.addRootHtbOk then
      (false, s1, rules1, c1 ++ [TcCmd.add TcRule.rootHtb false])
    else
      let rules2 := if bw > 0 then rules1 ++ [TcRule.rootHtb] else rules1
      let c2 := if bw > 0 then c1 ++ [TcCmd.add TcRule.rootHtb true] else c1
      if bw > 0 ∧ ¬ env.addHtbClassOk then
        let (s2, rules3, c3) := removeTcRules s1 rules2
        (false, s2, rules3, c2 ++ [TcCmd.add (TcRule.htbClass bw) false] ++ c3)
      else
        let rules3 := if bw > 0 then rules2 ++ [TcRule.htbClass bw] else rules2
        let c3 := if bw > 0 then c2 ++ [TcCmd.add (TcRule.htbClass bw) true] else c2
        if (lat > 0 ∨ loss > 0) ∧ ¬ env.addNetemOk then
          let (s2, rules4, c4) := removeTcRules s1 rules3
          (false, s2, rules4,
           c3 ++ [TcCmd.add (TcRule.netem (bw > 0) lat loss) false] ++ c4)
        else
          let rules4 :=
            if lat > 0 ∨ loss > 0 then rules3 ++ [TcRule.netem (bw > 0) lat loss]
            else rules3
          let c4 :=
            if lat > 0 ∨ loss > 0 then c3 ++ [TcCmd.add (TcRule.netem (bw > 0) lat loss) true]
            else c3
          (true, { s1 with tcRulesApplied := true }, rules4, c4)

/-- Embedding of `NetworkStressor::workerFunction` run to completion (the polling wait
only passes time): apply, and on success mark stopped and remove; on
failure mark stopped and return with no removal. -/
def workerFunction (env : TcEnv) (s : NetworkStressorState) (rules : List TcRule) :
    NetworkStressorState × List TcRule × List TcCmd :=
  match applyTcRules env s rules with
  | (false, s1, rules1, c1) => ({ s1 with running := false }, rules1, c1)
  | (true, s1, rules1, c1) =>
    let (s3, rules2, c2) := removeTcRules { s1 with running := false } rules1
    (s3, rules2, c1 ++ c2)

/-- Embedding of `NetworkStressor::start(config)`: refuse when running; fail fast,
before any state is touched, when the `tc` tool is unavailable. -/
def start (env : TcEnv) (now : Int) (config : NetworkStressConfig)
    (s : NetworkStressorState) : Bool × NetworkStressorState :=
  if s.running then (false, s)
  else if ¬ env.tcAvailable then (false, s)
  else
    (true,
     { s with
         config := config,
         durationMs := config.durationMs,
         startTimeMs := now,
         running := true,
         workerJoinable := true })

/-- Embedding of `NetworkStressor::stop`: mark stopped when it was running, join the
worker unconditionally, then `removeTcRules()`. -/
def stop (s : NetworkStressorState) (rules : List TcRule) :
    NetworkStressorState × List TcRule × List TcCmd :=
  let s1 := if s.running then { s with running := false } else s
  removeTcRules { s1 with workerJoinable := false } rules

/-- A complete run: successful `start`, the worker runs to completion
(which `stop`'s join guarantees happens before `stop` proceeds), then
`stop`. -/
def runAndStop (env : TcEnv) (now : Int) (config : NetworkStressConfig)
    (s : NetworkStressorState) (rules : List TcRule) :
    NetworkStressorState × List TcRule × List TcCmd :=
  match start env now config s with
  | (false, s1) => stop s1 rules
  | (true, s1) =>
    let (s2, rules2, c2) := workerFunction env s1 rules
    let (s3, rules3, c3) := stop s2 rules2
    (s3, rules3, c2 ++ c3)

/-- Embedding of `NetworkStressor::getStatus`. -/
def getStatus (now : Int) (s : NetworkStressorState) : StressStatus :=
  { type := "network", isRunning := s.running,
    remainingTimeMs :=
      StressorBase.getRemainingTimeMs s.running s.startTimeMs s.durationMs now,
    data :=
      if s.running then
        [("interface", s.config.targetInterface),
         ("bandwidthLimitKbps", toString s.config.bandwidthLimitKbps),
         ("latencyMs", toString s.config.latencyMs),
         ("packetLossPercent", toString s.config.packetLossPercent),
         ("rulesApplied", if s.tcRulesApplied then "true" else "false")]
      else [] }

end NetworkStressor

/-! ## Thermal generator (`thermal_stressor.cpp`) -/

structure ThermalStressConfig where
  disableThermalThrottling : Bool
  maxFrequencyPercent : Int
  forceAllCoresOnline : Bool
  durationMs : Int
  deriving DecidableEq

structure ThermalStressorState where
  running : Bool
  startTimeMs : Int
  durationMs : Int
  config : ThermalStressConfig
  originalSettings : Settings
  totalCores : Nat
  coresOnline : Int
  workerJoinable : Bool
  deriving DecidableEq

namespace ThermalStressor

/-- Embedding of `ThermalStressor::setCoreOnline`: CPU0 is never written. -/
def setCoreOnline (cpu : Nat) (onl : Bool) (fs : Sysfs) : Sysfs :=
  if cpu = 0 then fs
  else writeSysFile (SysKey.online cpu) (if onl then "1" else "0") fs

/-- Embedding of `ThermalStressor::isCoreOnline`: CPU0 always counts online; otherwise
`value.find("1") != npos` on the online file. -/
def isCoreOnline (fs : Sysfs) (cpu : Nat) : Bool :=
  if cpu = 0 then true else hasChar '1' (readSysFile fs (SysKey.online cpu)).data

/-- Embedding of `ThermalStressor::getMaxFrequency` (`cpuinfo_max_freq`, 0 on empty). -/
def getMaxFrequency (fs : Sysfs) (cpu : Nat) : Int :=
  let v := readSysFile fs (SysKey.cpuinfoMax cpu)
  if v = "" then 0 else stol v

/-- Embedding of `ThermalStressor::getMinFrequency` (`cpuinfo_min_freq`, 0 on empty). -/
def getMinFrequency (fs : Sysfs) (cpu : Nat) : Int :=
  let v := readSysFile fs (SysKey.cpuinfoMin cpu)
  if v = "" then 0 else stol v

/-- One iteration of `applySettings`' force-online loop (`cpu = 1 ..
numCores-1`): snapshot the online file when readable, then write `1`. -/
def forceOnlineStep (acc : Sysfs × Settings) (cpu : Nat) : Sysfs × Settings :=
  let fs := acc.1
  let st := acc.2
  let original := readSysFile fs (SysKey.online cpu)
  let st2 := if original ≠ "" then insertS st (SysKey.online cpu) original else st
  (setCoreOnline cpu true fs, st2)

/-- One iteration of `applySettings`' per-core frequency loop: skip
offline cores; snapshot the governor when readable and force
`performance`; when the hardware range is known and a sub-100 percentage
is configured, snapshot `scaling_max_freq` **as the hardware maximum**
(`std::to_string(maxFreq)`, not the file's current value) and write the
interpolated target. -/
def freqStep (maxFreqPercent : Int) (acc : Sysfs × Settings) (cpu : Nat) :
    Sysfs × Settings :=
  let fs := acc.1
  let st := acc.2
  if isCoreOnline fs cpu then
    let origGov := readSysFile fs (SysKey.governor cpu)
    let st2 := if origGov ≠ "" then insertS st (SysKey.governor cpu) origGov else st
    let fs2 := writeSysFile (SysKey.governor cpu) "performance" fs
    let maxFreq := getMaxFrequency fs2 cpu
    let minFreq := getMinFrequency fs2 cpu
    if maxFreq > 0 ∧ maxFreqPercent < 100 then
      let targetFreq := minFreq + Int.tdiv ((maxFreq - minFreq) * maxFreqPercent) 100
      let st3 := insertS st2 (SysKey.scalingMax cpu) (toString maxFreq)
      let fs3 := writeSysFile (SysKey.scalingMax cpu) (toString targetFreq) fs2
      (fs3, st3)
    else (fs2, st2)
  else (fs, st)

/-- The force-online half of `ThermalStressor::applySettings`
(`if (forceAllCores) for (cpu = 1; cpu < numCores; cpu++) ...`), acting
on the `originalSettings_` map that `start` just cleared. -/
def applyPhase1 (numCores : Nat) (cfg : ThermalStressConfig) (fs : Sysfs) :
    Sysfs × Settings :=
  if cfg.forceAllCoresOnline then
    (List.range' 1 (numCores - 1)).foldl forceOnlineStep (fs, [])
  else (fs, [])

/-- Embedding of `ThermalStressor::applySettings`: the force-online loop followed by
the per-core governor/frequency loop (`for (cpu = 0; cpu < numCores; ...)`). -/
def applySettings (numCores : Nat) (cfg : ThermalStressConfig) (fs : Sysfs) :
    Sysfs × Settings :=
  (List.range numCores).foldl (freqStep cfg.maxFrequencyPercent)
    (applyPhase1 numCores cfg fs)

/-- Embedding of `ThermalStressor::start(config)`: refuse when running; otherwise store
the config, clear the snapshot, latch the core count and arm the run. -/
def start (numCores : Nat) (now : Int) (config : ThermalStressConfig)
    (s : ThermalStressorState) : Bool × ThermalStressorState :=
  if s.running then (false, s)
  else
    (true,
     { s with
         config := config,
         originalSettings := [],
         totalCores := numCores,
         durationMs := config.durationMs,
         startTimeMs := now,
         running := true,
         workerJoinable := true })

/-- Embedding of `ThermalStressor::stop`: mark stopped when it was running, join the
worker unconditionally, then `restoreSettings()` (write every snapshotted
value back and clear the map); third component lists the write-backs this
call performed. -/
def stop (s : ThermalStressorState) (fs : Sysfs) :
    ThermalStressorState × Sysfs × Settings :=
  let s1 := if s.running then { s with running := false } else s
  let s2 := { s1 with workerJoinable := false }
  ({ s2 with originalSettings := [] },
   restoreAll s2.originalSettings fs, s2.originalSettings)

/-- Embedding of `ThermalStressor::getStatus`. -/
def getStatus (now : Int) (s : ThermalStressorState) : StressStatus :=
  { type := "thermal", isRunning := s.running,
    remainingTimeMs :=
      StressorBase.getRemainingTimeMs s.running s.startTimeMs s.durationMs now,
    data :=
      if s.running then
        [("totalCores", toString s.totalCores),
         ("onlineCores", toString s.coresOnline),
         ("maxFrequencyPercent", toString s.config.maxFrequencyPercent),
         ("forceAllCoresOnline", if s.config.forceAllCoresOnline then "true" else "false")]
      else [] }

end ThermalStressor

/-! ## Persistent frequency-throttle controller (`cpu_freq_manager.cpp`) -/

structure CPUFreqManagerState where
  isLimited : Bool
  targetMaxFreq : Int
  originalMaxFreq : Int
  autoRestoreMs : Int
  limitStartTimeMs : Int
  targetCores : List Nat
  originalSettings : Settings
  workerRunning : Bool
  deriving DecidableEq

namespace CPUFreqManager

/-- Embedding of `CPUFreqManager::getCurrentMaxFreq`: parse `scaling_max_freq`, 0 when
unreadable or unparsable. -/
def getCurrentMaxFreq (fs : Sysfs) (cpu : Nat) : Int :=
  let v := readSysFile fs (SysKey.scalingMax cpu)
  if v = "" then 0 else stol v

/-- Embedding of `CPUFreqManager::getHardwareMaxFreq`: parse `cpuinfo_max_freq`. -/
def getHardwareMaxFreq (fs : Sysfs) (cpu : Nat) : Int :=
  let v := readSysFile fs (SysKey.cpuinfoMax cpu)
  if v = "" then 0 else stol v

/-- The snapshot loop of `setMaxFrequency` (run only when not yet
limiting): save each target core's current `scaling_max_freq` when it
parses positive. -/
def snapshotCores (fs : Sysfs) : List Nat → Settings → Settings
  | [], st => st
  | cpu :: rest, st =>
    let origFreq := getCurrentMaxFreq fs cpu
    let st2 :=
      if origFreq > 0 then insertS st (SysKey.scalingMax cpu) (toString origFreq)
      else st
    snapshotCores fs rest st2

/-- The apply loop of `setMaxFrequency`: write the new ceiling to every
target core (writes modelled total, so `allSuccess` holds). -/
def applyCores (freq : Int) : List Nat → Sysfs → Sysfs
  | [], fs => fs
  | cpu :: rest, fs =>
    applyCores freq rest (writeSysFile (SysKey.scalingMax cpu) (toString freq) fs)

/-- Embedding of `CPUFreqManager::setMaxFrequency(frequency, cores, autoRestoreMs)`:
target all `numCores` cores when `cores` is empty; snapshot originals
only when this is the first limiting call of the session
(`!isLimited_`); apply the ceiling; record the target set, arm the
auto-restore clock, raise `isLimited_` and ensure the worker runs. -/
def setMaxFrequency (numCores : Nat) (now : Int) (frequency : Int)
    (cores : List Nat) (autoRestoreMs : Int)
    (st : CPUFreqManagerState) (fs : Sysfs) :
    Bool × CPUFreqManagerState × Sysfs :=
  let targetCores := if cores = [] then List.range numCores else cores
  let snap :=
    if ¬ st.isLimited then
      (snapshotCores fs targetCores [], getHardwareMaxFreq fs 0)
    else (st.originalSettings, st.originalMaxFreq)
  let fs2 := applyCores frequency targetCores fs
  (true,
   { st with
       originalSettings := snap.1,
       originalMaxFreq := snap.2,
       targetCores := targetCores,
       targetMaxFreq := frequency,
       autoRestoreMs := autoRestoreMs,
       limitStartTimeMs := now,
       isLimited := true,
       workerRunning := true },
   fs2)

/-- Embedding of `CPUFreqManager::restore`: stop the worker; no-op when not limiting;
otherwise write back every snapshotted ceiling and clear all state. -/
def restore (st : CPUFreqManagerState) (fs : Sysfs) :
    Bool × CPUFreqManagerState × Sysfs :=
  let st0 := { st with workerRunning := false }
  if ¬ st0.isLimited then (true, st0, fs)
  else
    (true,
     { st0 with
         originalSettings := [],
         targetCores := [],
         targetMaxFreq := 0,
         autoRestoreMs := 0,
         limitStartTimeMs := 0,
         isLimited := false },
     restoreAll st.originalSettings fs)

end CPUFreqManager

/-! ## Orchestrator (`stress_manager.cpp`)

Every public method of `StressManager` is
`std::lock_guard<std::mutex> lock(mutex_);` followed by the dispatched
generator call(s), so each method is embedded as its event trace: the
single coordination mutex is acquired, the generator calls run, the mutex
is released at scope exit.  Whether a dispatched generator call performs
internally blocking work (a `thread::join`, file I/O, or an external tool
invocation) is read off the generator sources:

* every generator's `stop()` joins its worker thread(s) and then runs its
  cleanup (releasing memory, unlinking files, invoking `tc`, writing
  sysfs), so every `stopOp` blocks;
* `DiskStressor::start` calls `ensureDirectory` (`stat`/`mkdir`), and
  `NetworkStressor::start` calls `checkTcAvailable` (a `popen` of the
  `tc` probe), so those `startOp`s block on file I/O / a subprocess;
* `MemoryStressor::getStatus` reads `/proc/meminfo` while running, so the
  memory `statusOp` can block on file I/O;
* the remaining `start`/`status` calls only update or read in-memory
  fields and spawn (not join) threads. -/

inductive GenId
  | cpu
  | memory
  | disk
  | network
  | thermal
  deriving DecidableEq

inductive OpKind
  | startOp
  | stopOp
  | statusOp
  deriving DecidableEq

inductive MgrEvent
  | lockAcquire
  | lockRelease
  | genCall (g : GenId) (o : OpKind)
  deriving DecidableEq

namespace StressManager

/-- Whether the dispatched generator call contains internally blocking
work (thread join, file I/O, allocation, external tool invocation). -/
def opBlocksInternally : GenId → OpKind → Bool
  | _, OpKind.stopOp => true
  | GenId.disk, OpKind.startOp => true
  | GenId.network, OpKind.startOp => true
  | GenId.memory, OpKind.statusOp => true
  | _, _ => false

/-- Event trace of a single-dispatch manager method
(`std::lock_guard` around one generator call). -/
def dispatchTrace (g : GenId) (o : OpKind) : List MgrEvent :=
  [MgrEvent.lockAcquire, MgrEvent.genCall g o, MgrEvent.lockRelease]

def startCpuStress : List MgrEvent := dispatchTrace GenId.cpu OpKind.startOp
def stopCpuStress : List MgrEvent := dispatchTrace GenId.cpu OpKind.stopOp
def getCpuStatus : List MgrEvent := dispatchTrace GenId.cpu OpKind.statusOp
def startMemoryStress : List MgrEvent := dispatchTrace GenId.memory OpKind.startOp
def stopMemoryStress : List MgrEvent := dispatchTrace GenId.memory OpKind.stopOp
def getMemoryStatus : List MgrEvent := dispatchTrace GenId.memory OpKind.statusOp
def startDiskStress : List MgrEvent := dispatchTrace GenId.disk OpKind.startOp
def stopDiskStress : List MgrEvent := dispatchTrace GenId.disk OpKind.stopOp
def getDiskStatus : List MgrEvent := dispatchTrace GenId.disk OpKind.statusOp
def startNetworkStress : List MgrEvent := dispatchTrace GenId.network OpKind.startOp
def stopNetworkStress : List MgrEvent := dispatchTrace GenId.network OpKind.stopOp
def getNetworkStatus : List MgrEvent := dispatchTrace GenId.network OpKind.statusOp
def startThermalStress : List MgrEvent := dispatchTrace GenId.thermal OpKind.startOp
def stopThermalStress : List MgrEvent := dispatchTrace GenId.thermal OpKind.stopOp
def getThermalStatus : List MgrEvent := dispatchTrace GenId.thermal OpKind.statusOp

/-- Embedding of `StressManager::stopAll`: one lock acquisition held across all five
generator stops. -/
def stopAll : List MgrEvent :=
  [MgrEvent.lockAcquire,
   MgrEvent.genCall GenId.cpu OpKind.stopOp,
   MgrEvent.genCall GenId.memory OpKind.stopOp,
   MgrEvent.genCall GenId.disk OpKind.stopOp,
   MgrEvent.genCall GenId.network OpKind.stopOp,
   MgrEvent.genCall GenId.thermal OpKind.stopOp,
   MgrEvent.lockRelease]

/-- Embedding of `StressManager::getAllStatusJson`: one lock acquisition held across
all five status calls. -/
def getAllStatusJson : List MgrEvent :=
  [MgrEvent.lockAcquire,
   MgrEvent.genCall GenId.cpu OpKind.statusOp,
   MgrEvent.genCall GenId.memory OpKind.statusOp,
   MgrEvent.genCall GenId.disk OpKind.statusOp,
   MgrEvent.genCall GenId.network OpKind.statusOp,
   MgrEvent.genCall GenId.thermal OpKind.statusOp,
   MgrEvent.lockRelease]

/-- All public control-dispatch traces of the orchestrator. -/
def managerTraces : List (List MgrEvent) :=
  [startCpuStress, stopCpuStress, getCpuStatus,
   startMemoryStress, stopMemoryStress, getMemoryStatus,
   startDiskStress, stopDiskStress, getDiskStatus,
   startNetworkStress, stopNetworkStress, getNetworkStatus,
   startThermalStress, stopThermalStress, getThermalStatus,
   stopAll, getAllStatusJson]

/-- The start/stop dispatch traces (the "control calls" whose slowness the
spec says a status query never waits behind). -/
def controlTraces : List (List MgrEvent) :=
  [startCpuStress, stopCpuStress,
   startMemoryStress, stopMemoryStress,
   startDiskStress, stopDiskStress,
   startNetworkStress, stopNetworkStress,
   startThermalStress, stopThermalStress,
   stopAll]

/-- Scan of a trace tracking the lock depth: is some internally blocking
generator call performed while the coordination mutex is held? -/
def heldScan : Nat → List MgrEvent → Bool
  | _, [] => false
  | d, MgrEvent.lockAcquire :: rest => heldScan (d + 1) rest
  | d, MgrEvent.lockRelease :: rest => heldScan (d - 1) rest
  | d, MgrEvent.genCall g o :: rest =>
    (decide (0 < d) && opBlocksInternally g o) || heldScan d rest

/-- Whether a manager method holds the coordination lock across a
blocking generator step. -/
def heldAcrossBlocking (t : List MgrEvent) : Bool := heldScan 0 t

/-- Whether a trace begins by acquiring the coordination mutex (so it
queues behind any holder of that mutex). -/
def acquiresCoordinationMutex (t : List MgrEvent) : Bool :=
  match t with
  | MgrEvent.lockAcquire :: _ => true
  | _ => false

/-- The spec's lock-scope discipline as a predicate over the embedded
orchestrator: no public method holds the coordination lock across a
generator call containing blocking work. -/
def lockNeverHeldAcrossBlocking : Bool :=
  managerTraces.all (fun t => !(heldAcrossBlocking t))

/-- The dispatch methods whose generator call contains blocking work:
every stop (a join plus cleanup), the disk and network starts (file I/O,
tool probe), and `stopAll`. -/
def blockingControlTraces : List (List MgrEvent) :=
  [stopCpuStress, stopMemoryStress, stopDiskStress,
   stopNetworkStress, stopThermalStress,
   startDiskStress, startNetworkStress, stopAll]

end StressManager

/-! ## Concrete instances used by the closed witnesses and refutations -/

def cpuCfgA : CPUStressConfig := ⟨2, 50, 200, false, []⟩

def cpuIdleA : CPUStressorState := ⟨false, 0, 0, cpuCfgA, 0, 0⟩

def cpuRunA : CPUStressorState := ⟨true, 100, 200, cpuCfgA, 2, 3000⟩

def memCfgA : MemoryStressConfig := ⟨100, 10, 300000, true, false⟩

def memIdleA : MemoryStressorState := ⟨false, 0, 0, memCfgA, false, [], 0⟩

def memRunA : MemoryStressorState := ⟨true, 100, 300000, memCfgA, true, [], 0⟩

def diskCfgA : DiskStressConfig := ⟨5, 100, 300000, "/data/local/tmp/danr_stress", false, false⟩

def diskCfgB : DiskStressConfig := ⟨7, 200, 60000, "/data/local/tmp/other", false, true⟩

def diskIdleA : DiskStressorState := ⟨false, 0, 0, diskCfgA, false, 0, 0⟩

def diskRunA : DiskStressorState := ⟨true, 100, 300000, diskCfgA, true, 0, 0⟩

/-- A filesystem in which every path exists but is not a directory. -/
def diskEnvA : DiskEnv := ⟨fun _ => some false, fun _ => false⟩

def netCfgA : NetworkStressConfig := ⟨1000, 0, 0, 5000, "wlan0"⟩

def netIdleA : NetworkStressorState := ⟨false, 0, 0, netCfgA, false, false⟩

def netRunA : NetworkStressorState := ⟨true, 100, 5000, netCfgA, true, true⟩

def thermalCfgA : ThermalStressConfig := ⟨false, 50, true, 60000⟩

def thermalIdleA : ThermalStressorState := ⟨false, 0, 0, thermalCfgA, [], 2, 0, false⟩

def thermalRunA : ThermalStressorState := ⟨true, 100, 60000, thermalCfgA, [], 2, 2, true⟩

/-- Environment where `tc` is missing from the system. -/
def tcEnvUnavailable : TcEnv := ⟨false, true, true, true⟩

/-- Environment where `tc` is present; the root-qdisc add succeeds but the class add fails. -/
def tcEnvPartialFailure : TcEnv := ⟨true, true, false, true⟩

/-- A two-core sysfs: core 1 starts offline, both governors are
`schedutil`, and both scaling ceilings are user-capped strictly below the
hardware maximum. -/
def fsA : Sysfs := fun k =>
  match k with
  | SysKey.online 1 => "0"
  | SysKey.governor 0 => "schedutil"
  | SysKey.governor 1 => "schedutil"
  | SysKey.scalingMax 0 => "1500000"
  | SysKey.scalingMax 1 => "1400000"
  | SysKey.cpuinfoMax 0 => "2000000"
  | SysKey.cpuinfoMax 1 => "1800000"
  | SysKey.cpuinfoMin 0 => "300000"
  | SysKey.cpuinfoMin 1 => "300000"
  | _ => ""

/-- A throttle controller that has never limited (fresh session). -/
def freqIdleA : CPUFreqManagerState := ⟨false, 0, 2000000, 0, 0, [], [], false⟩

/-- One complete throttle session: `setLimit(F1)`, `setLimit(F2)`,
`restore()`; returns the final controller state and sysfs. -/
def limitSession (numCores : Nat) (t1 t2 f1 f2 ar1 ar2 : Int)
    (cores1 cores2 : List Nat) (st : CPUFreqManagerState) (fs : Sysfs) :
    CPUFreqManagerState × Sysfs :=
  let c1 := CPUFreqManager.setMaxFrequency numCores t1 f1 cores1 ar1 st fs
  let c2 := CPUFreqManager.setMaxFrequency numCores t2 f2 cores2 ar2 c1.2.1 c1.2.2
  let r := CPUFreqManager.restore c2.2.1 c2.2.2
  (r.2.1, r.2.2)

/-- A memory-generator state reached by one recorded allocation after a
fresh start. -/
def memReachedA : MemoryStressorState :=
  MemoryStressor.allocStep 0 (MemoryStressor.start 0 memCfgA memIdleA).2

/-! ## Shared lemmas -/

theorem lookupS_insertS_self (s : Settings) (k : SysKey) (v : String) :
    lookupS (insertS s k v) k = some v := by
  induction s with
  | nil => simp [insertS, lookupS]
  | cons kv rest ih =>
    obtain ⟨k2, v2⟩ := kv
    by_cases h : k2 = k
    · simp [insertS, lookupS, h]
    · simp [insertS, lookupS, h, ih]

theorem lookupS_insertS_ne (s : Settings) (k k2 : SysKey) (v : String)
    (h : k2 ≠ k) : lookupS (insertS s k v) k2 = lookupS s k2 := by
  induction s with
  | nil =>
    have h2 : ¬ (k = k2) := fun h3 => h h3.symm
    simp [insertS, lookupS, h2]
  | cons kv rest ih =>
    obtain ⟨k3, v3⟩ := kv
    by_cases h3 : k3 = k
    · subst h3
      have h2 : ¬ (k3 = k2) := fun h4 => h h4.symm
      simp [insertS, lookupS, h2]
    · by_cases h4 : k3 = k2 <;> simp [insertS, lookupS, h3, h4, h, ih]

theorem hasKey_insertS (s : Settings) (k k2 : SysKey) (v : String) :
    hasKey (insertS s k v) k2 = (decide (k = k2) || hasKey s k2) := by
  induction s with
  | nil => simp [insertS, hasKey]
  | cons kv rest ih =>
    obtain ⟨k3, v3⟩ := kv
    by_cases h3 : k3 = k <;> by_cases h4 : k3 = k2 <;> by_cases hk : k = k2 <;>
      simp [insertS, hasKey, h3, h4, hk, ih] <;> simp_all [insertS, hasKey]

theorem noDupKeys_insertS (s : Settings) (k : SysKey) (v : String)
    (h : noDupKeys s) : noDupKeys (insertS s k v) := by
  induction s with
  | nil => simp [insertS, noDupKeys, hasKey]
  | cons kv rest ih =>
    obtain ⟨k2, v2⟩ := kv
    obtain ⟨h1, h2⟩ := h
    by_cases hk : k2 = k
    · subst hk
      simpa [insertS, noDupKeys] using ⟨h1, h2⟩
    · have hne : ¬ (k = k2) := fun h3 => hk h3.symm
      simp [insertS, noDupKeys, hk]
      refine ⟨?_, ih h2⟩
      rw [hasKey_insertS]
      simp [hne, h1]

theorem lookupS_eq_none (s : Settings) (k : SysKey)
    (h : hasKey s k = false) : lookupS s k = none := by
  induction s with
  | nil => rfl
  | cons kv rest ih =>
    obtain ⟨k2, v2⟩ := kv
    simp [hasKey] at h
    simp [lookupS, h.1, ih h.2]

theorem restoreAll_not_hasKey (s : Settings) (fs : Sysfs) (k : SysKey)
    (h : hasKey s k = false) : restoreAll s fs k = fs k := by
  induction s generalizing fs with
  | nil => rfl
  | cons kv rest ih =>
    obtain ⟨k2, v2⟩ := kv
    simp [hasKey] at h
    have hstep : restoreAll ((k2, v2) :: rest) fs = restoreAll rest (writeSysFile k2 v2 fs) := rfl
    have hne : ¬ (k = k2) := fun h3 => h.1 h3.symm
    rw [hstep, ih _ h.2]
    simp [writeSysFile, hne]

/-- With unique keys the final value of every control file after a restore
loop is the saved value when one exists, and is untouched otherwise. -/
theorem restoreAll_lookup (s : Settings) (fs : Sysfs) (k : SysKey)
    (h : noDupKeys s) :
    restoreAll s fs k = ((lookupS s k).getD (fs k)) := by
  induction s generalizing fs with
  | nil => rfl
  | cons kv rest ih =>
    obtain ⟨k2, v2⟩ := kv
    obtain ⟨h1, h2⟩ := h
    have hstep : restoreAll ((k2, v2) :: rest) fs = restoreAll rest (writeSysFile k2 v2 fs) := rfl
    by_cases hk : k2 = k
    · subst hk
      rw [hstep, restoreAll_not_hasKey rest _ k2 h1]
      simp [lookupS, writeSysFile]
    · have hne : ¬ (k = k2) := fun h3 => hk h3.symm
      rw [hstep, ih _ h2]
      simp [lookupS, hk, writeSysFile, hne]

theorem getRemainingTimeMs_eq (running : Bool) (startTimeMs durationMs now : Int) :
    StressorBase.getRemainingTimeMs running startTimeMs durationMs now =
      if running then max 0 (durationMs - (now - startTimeMs)) else 0 := by
  cases running <;> simp [StressorBase.getRemainingTimeMs] <;> (try split) <;> omega

/-! ## The claims -/

/-- C5: for every generator, calling `start(config)` while the generator
is already running returns `false` and leaves the whole state — stored
configuration, duration, running flag, counters, worker threads —
unchanged. -/
theorem start_whileRunning_rejected
    (now1 now2 now3 now4 now5 : Int) (n : Nat) (denv : DiskEnv) (tenv : TcEnv)
    (c1 : CPUStressConfig) (s1 : CPUStressorState)
    (c2 : MemoryStressConfig) (s2 : MemoryStressorState)
    (c3 : DiskStressConfig) (s3 : DiskStressorState)
    (c4 : NetworkStressConfig) (s4 : NetworkStressorState)
    (c5 : ThermalStressConfig) (s5 : ThermalStressorState)
    (h1 : s1.running = true) (h2 : s2.running = true) (h3 : s3.running = true)
    (h4 : s4.running = true) (h5 : s5.running = true) :
    CPUStressor.start now1 c1 s1 = (false, s1) ∧
    MemoryStressor.start now2 c2 s2 = (false, s2) ∧
    DiskStressor.start denv now3 c3 s3 = (false, s3) ∧
    NetworkStressor.start tenv now4 c4 s4 = (false, s4) ∧
    ThermalStressor.start n now5 c5 s5 = (false, s5) := by
  refine ⟨?_, ?_, ?_, ?_, ?_⟩ <;>
    simp [CPUStressor.start, MemoryStressor.start, DiskStressor.start,
          NetworkStressor.start, ThermalStressor.start, h1, h2, h3, h4, h5]

/-- Closed witness for C5 at concrete running states. -/
theorem start_whileRunning_rejected_witness :
    CPUStressor.start 7 cpuCfgA cpuRunA = (false, cpuRunA) ∧
    MemoryStressor.start 7 memCfgA memRunA = (false, memRunA) ∧
    DiskStressor.start diskEnvA 7 diskCfgA diskRunA = (false, diskRunA) ∧
    NetworkStressor.start tcEnvUnavailable 7 netCfgA netRunA = (false, netRunA) ∧
    ThermalStressor.start 2 7 thermalCfgA thermalRunA = (false, thermalRunA) :=
  start_whileRunning_rejected 7 7 7 7 7 2 diskEnvA tcEnvUnavailable
    cpuCfgA cpuRunA memCfgA memRunA diskCfgA diskRunA netCfgA netRunA
    thermalCfgA thermalRunA rfl rfl rfl rfl rfl

/-- C7: when the traffic-shaping utility is unavailable,
`NetworkStressor::start(config)` returns `false` with nothing touched:
the returned state is the input state unchanged (no config stored, no
duration armed, running still as before, no worker spawned), and neither
`applyTcRules` nor `removeTcRules` is invoked, so the interface rules are
untouched. -/
theorem networkStart_toolUnavailable (env : TcEnv) (now : Int)
    (cfg : NetworkStressConfig) (s : NetworkStressorState)
    (henv : env.tcAvailable = false) :
    NetworkStressor.start env now cfg s = (false, s) := by
  by_cases h : s.running <;> simp [NetworkStressor.start, h, henv]

/-- Closed witness for C7. -/
theorem networkStart_toolUnavailable_witness :
    NetworkStressor.start tcEnvUnavailable 7 netCfgA netIdleA = (false, netIdleA) :=
  networkStart_toolUnavailable tcEnvUnavailable 7 netCfgA netIdleA rfl

/-- C10: when the disk generator's target path exists but is not a
directory, or is absent and cannot be created, `start(config)` returns
`false`, spawns no worker and stays not-running — but the stored
configuration has already been overwritten with the new config before
`ensureDirectory` detects the failure. -/
theorem diskStart_invalidPath (env : DiskEnv) (now : Int)
    (cfg : DiskStressConfig) (s : DiskStressorState)
    (hrun : s.running = false)
    (hbad : env.pathStat cfg.testPath = some false ∨
      (env.pathStat cfg.testPath = none ∧ env.mkdirOk cfg.testPath = false)) :
    DiskStressor.start env now cfg s = (false, { s with config := cfg }) ∧
    (DiskStressor.start env now cfg s).2.running = false ∧
    (DiskStressor.start env now cfg s).2.workerJoinable = s.workerJoinable ∧
    (DiskStressor.start env now cfg s).2.config = cfg := by
  have hmain : DiskStressor.start env now cfg s = (false, { s with config := cfg }) := by
    rcases hbad with h | ⟨h, h2⟩
    · simp [DiskStressor.start, DiskStressor.ensureDirectory, hrun, h]
    · simp [DiskStressor.start, DiskStressor.ensureDirectory, hrun, h, h2]
  refine ⟨hmain, ?_, ?_, ?_⟩ <;> rw [hmain] <;> simp [hrun]

/-- Closed witness for C10: the failed start has still overwritten the
stored config (`diskCfgA` → `diskCfgB`). -/
theorem diskStart_invalidPath_witness :
    DiskStressor.start diskEnvA 7 diskCfgB diskIdleA =
      (false, { diskIdleA with config := diskCfgB }) :=
  (diskStart_invalidPath diskEnvA 7 diskCfgB diskIdleA rfl (Or.inl rfl)).1

/-- C8: every generator's `status()` reports remaining time
`max(0, duration − elapsed)` while running, and zero remaining time with
an empty type-specific counter map when idle. -/
theorem status_snapshot (now availableMB : Int)
    (a : CPUStressorState) (b : MemoryStressorState) (c : DiskStressorState)
    (d : NetworkStressorState) (e : ThermalStressorState) :
    (a.running = true → (CPUStressor.getStatus now a).remainingTimeMs =
        max 0 (a.durationMs - (now - a.startTimeMs))) ∧
    (b.running = true → (MemoryStressor.getStatus now availableMB b).remainingTimeMs =
        max 0 (b.durationMs - (now - b.startTimeMs))) ∧
    (c.running = true → (DiskStressor.getStatus now c).remainingTimeMs =
        max 0 (c.durationMs - (now - c.startTimeMs))) ∧
    (d.running = true → (NetworkStressor.getStatus now d).remainingTimeMs =
        max 0 (d.durationMs - (now - d.startTimeMs))) ∧
    (e.running = true → (ThermalStressor.getStatus now e).remainingTimeMs =
        max 0 (e.durationMs - (now - e.startTimeMs))) ∧
    (a.running = false → (CPUStressor.getStatus now a).remainingTimeMs = 0 ∧
        (CPUStressor.getStatus now a).data = []) ∧
    (b.running = false → (MemoryStressor.getStatus now availableMB b).remainingTimeMs = 0 ∧
        (MemoryStressor.getStatus now availableMB b).data = []) ∧
    (c.running = false → (DiskStressor.getStatus now c).remainingTimeMs = 0 ∧
        (DiskStressor.getStatus now c).data = []) ∧
    (d.running = false → (NetworkStressor.getStatus now d).remainingTimeMs = 0 ∧
        (NetworkStressor.getStatus now d).data = []) ∧
    (e.running = false → (ThermalStressor.getStatus now e).remainingTimeMs = 0 ∧
        (ThermalStressor.getStatus now e).data = []) := by
  refine ⟨?_, ?_, ?_, ?_, ?_, ?_, ?_, ?_, ?_, ?_⟩ <;> intro h <;>
    simp [CPUStressor.getStatus, MemoryStressor.getStatus, DiskStressor.getStatus,
          NetworkStressor.getStatus, ThermalStressor.getStatus,
          getRemainingTimeMs_eq, h]

/-- Closed witness for C8, applying the theorem both at running states
(50 ms elapsed of the CPU run's 200 ms) and at idle states. -/
theorem status_snapshot_witness :
    (CPUStressor.getStatus 150 cpuRunA).remainingTimeMs =
      max 0 (200 - (150 - 100)) ∧
    (NetworkStressor.getStatus 150 netRunA).remainingTimeMs =
      max 0 (5000 - (150 - 100)) ∧
    (CPUStressor.getStatus 150 cpuIdleA).remainingTimeMs = 0 ∧
    (CPUStressor.getStatus 150 cpuIdleA).data = [] ∧
    (MemoryStressor.getStatus 150 0 memIdleA).data = [] ∧
    (DiskStressor.getStatus 150 diskIdleA).data = [] ∧
    (NetworkStressor.getStatus 150 netIdleA).data = [] ∧
    (ThermalStressor.getStatus 150 thermalIdleA).data = [] :=
  have h1 := status_snapshot 150 0 cpuRunA memRunA diskRunA netRunA thermalRunA
  have h2 := status_snapshot 150 0 cpuIdleA memIdleA diskIdleA netIdleA thermalIdleA
  ⟨h1.1 rfl, h1.2.2.2.1 rfl,
   (h2.2.2.2.2.2.1 rfl).1, (h2.2.2.2.2.2.1 rfl).2,
   (h2.2.2.2.2.2.2.1 rfl).2, (h2.2.2.2.2.2.2.2.1 rfl).2,
   (h2.2.2.2.2.2.2.2.2.1 rfl).2, (h2.2.2.2.2.2.2.2.2.2 rfl).2⟩

/-- C9 counterexample: the orchestrator's coordination mutex *is* held
across internally blocking generator work — `stopCpuStress` (like every
stop dispatch) joins the generator's workers and runs cleanup inside the
`std::lock_guard` scope — so the claimed lock discipline is false. -/
theorem lockDiscipline_counterexample :
    StressManager.lockNeverHeldAcrossBlocking = false ∧
    StressManager.heldAcrossBlocking StressManager.stopCpuStress = true := by
  constructor <;> decide

/-- C9 amended: every dispatch whose generator call blocks internally
(all five stops, the disk and network starts, `stopAll`) holds the
coordination mutex across that blocking work, and every public manager
method — status queries included — begins by acquiring that same mutex,
so a concurrent status query can stall behind a slow stop or start. -/
theorem lockHeldAcrossBlocking_amended :
    (StressManager.blockingControlTraces.all StressManager.heldAcrossBlocking) = true ∧
    (StressManager.managerTraces.all StressManager.acquiresCoordinationMutex) = true := by
  constructor <;> decide

/-- C1 (failing input): with a bandwidth cap configured, the root-qdisc
add succeeding and the class add failing, a complete run —
`start`, the worker (whose error path calls `removeTcRules()`, a no-op
because `tcRulesApplied_` is still false), then `stop` (whose
`removeTcRules()` is the same no-op) — leaves the root HTB qdisc
installed on the interface after `stop()` returns. -/
theorem networkRun_partialFailure_leavesRule :
    (NetworkStressor.runAndStop tcEnvPartialFailure 0 netCfgA netIdleA []).2.1 =
      [TcRule.rootHtb] ∧
    (NetworkStressor.runAndStop tcEnvPartialFailure 0 netCfgA netIdleA []).2.1 ≠ [] := by
  constructor <;> decide

theorem releasedRegions_releaseEvents (lock : Bool) (rs : List Nat) :
    MemoryStressor.releasedRegions (MemoryStressor.releaseEvents lock rs) = rs := by
  induction rs with
  | nil => cases lock <;> rfl
  | cons r rest ih =>
    cases lock <;>
      simp [MemoryStressor.releaseEvents, MemoryStressor.releasedRegions, ih]

theorem memStop_eq (s : MemoryStressorState) :
    MemoryStressor.stop s =
      ({ s with running := false, workerJoinable := false,
                allocations := [], allocatedBytes := 0 },
       MemoryStressor.MemEvent.moveAndClear ::
         MemoryStressor.releaseEvents s.config.lockMemory s.allocations) := by
  by_cases h : s.running <;>
    simp [MemoryStressor.stop, MemoryStressor.releaseMemory, h]

theorem reachable_allocatedBytes (s : MemoryStressorState)
    (h : MemoryStressor.Reachable s) :
    s.allocatedBytes = (s.allocations.length : Int) * MemoryStressor.chunkSizeBytes s.config := by
  induction h with
  | started now cfg s0 h0 ha => simp [MemoryStressor.start, h0, ha]
  | alloc r s2 _ ih =>
    simp [MemoryStressor.allocStep, ih]
    ring

/-- C4 amended: on stop every recorded region is released exactly once
(in the recorded order) and the bytes released equal the bytes recorded
since the last start, but the release happens *after* the allocation list
has been moved out and cleared, not before. -/
theorem memoryRelease_conservation (s : MemoryStressorState)
    (h : MemoryStressor.Reachable s) :
    MemoryStressor.releasedRegions (MemoryStressor.stop s).2 = s.allocations ∧
    MemoryStressor.releasedBytes s.config (MemoryStressor.stop s).2 = s.allocatedBytes ∧
    s.allocatedBytes = (s.allocations.length : Int) * MemoryStressor.chunkSizeBytes s.config ∧
    (MemoryStressor.stop s).1.allocations = [] := by
  have hb := reachable_allocatedBytes s h
  rw [memStop_eq]
  refine ⟨?_, ?_, hb, rfl⟩
  · simp [MemoryStressor.releasedRegions, releasedRegions_releaseEvents]
  · simp [MemoryStressor.releasedBytes, MemoryStressor.releasedRegions,
          releasedRegions_releaseEvents, hb]

/-- Closed witness for C4's amended theorem, at a run with one recorded
10 MB chunk. -/
theorem memoryRelease_conservation_witness :
    MemoryStressor.releasedRegions (MemoryStressor.stop memReachedA).2 =
      memReachedA.allocations ∧
    MemoryStressor.releasedBytes memReachedA.config (MemoryStressor.stop memReachedA).2 =
      memReachedA.allocatedBytes :=
  have h := memoryRelease_conservation memReachedA
    (MemoryStressor.Reachable.alloc 0 _
      (MemoryStressor.Reachable.started 0 memCfgA memIdleA rfl rfl))
  ⟨h.1, h.2.1⟩

/-- C4 counterexample: the release does **not** happen before the list is
cleared — `releaseMemory` moves the list out and clears the bookkeeping
first, and only then releases the regions, so in the stop trace of a run
with one recorded chunk a region release occurs after the clear. -/
theorem memoryRelease_orderCounterexample :
    MemoryStressor.releasesPrecedeClear (MemoryStressor.stop memReachedA).2 = false ∧
    MemoryStressor.anyRelease (MemoryStressor.stop memReachedA).2 = true := by
  constructor <;> decide

theorem cleanup_fixpoint (files : List String) :
    DiskStressor.cleanup (DiskStressor.cleanup files) = DiskStressor.cleanup files ∧
    (DiskStressor.cleanup files).filter DiskStressor.isStressTmpName = [] := by
  induction files with
  | nil => exact ⟨rfl, rfl⟩
  | cons f rest ih =>
    by_cases h : DiskStressor.isStressTmpName f <;>
      simp [DiskStressor.cleanup, List.filter_cons, h, ih.1, ih.2]

/-- C6: for every generator, `stop()` always joins background work and
runs the restoration/cleanup path, whatever state the run is in
(including after duration-expiry self-termination), and a second `stop()`
after a completed one changes nothing further: same state, no joins, no
region released twice, no file unlinked twice, no `tc` command issued,
no snapshot written back twice. -/
theorem stop_idempotent :
    (∀ s : CPUStressorState,
        CPUStressor.stop (CPUStressor.stop s).1 = ((CPUStressor.stop s).1, []) ∧
        (CPUStressor.stop s).1.running = false ∧
        (CPUStressor.stop s).2.length = s.workerThreads) ∧
    (∀ s : MemoryStressorState,
        MemoryStressor.stop (MemoryStressor.stop s).1 =
          ((MemoryStressor.stop s).1, [MemoryStressor.MemEvent.moveAndClear]) ∧
        (MemoryStressor.stop s).1.allocations = [] ∧
        MemoryStressor.releasedRegions (MemoryStressor.stop s).2 = s.allocations ∧
        (MemoryStressor.stop s).1.running = false) ∧
    (∀ (s : DiskStressorState) (files : List String),
        DiskStressor.stop (DiskStressor.stop s files).1 (DiskStressor.stop s files).2.1 =
          ((DiskStressor.stop s files).1, (DiskStressor.stop s files).2.1, []) ∧
        (DiskStressor.stop s files).2.1 = DiskStressor.cleanup files ∧
        (DiskStressor.stop s files).1.running = false) ∧
    (∀ (s : NetworkStressorState) (rules : List TcRule),
        NetworkStressor.stop (NetworkStressor.stop s rules).1 (NetworkStressor.stop s rules).2.1 =
          ((NetworkStressor.stop s rules).1, (NetworkStressor.stop s rules).2.1, []) ∧
        (NetworkStressor.stop s rules).1.tcRulesApplied = false ∧
        (NetworkStressor.stop s rules).1.running = false) ∧
    (∀ (s : ThermalStressorState) (fs : Sysfs),
        ThermalStressor.stop (ThermalStressor.stop s fs).1 (ThermalStressor.stop s fs).2.1 =
          ((ThermalStressor.stop s fs).1, (ThermalStressor.stop s fs).2.1, []) ∧
        (ThermalStressor.stop s fs).2.2 = s.originalSettings ∧
        (ThermalStressor.stop s fs).1.originalSettings = [] ∧
        (ThermalStressor.stop s fs).1.running = false) := by
  refine ⟨?_, ?_, ?_, ?_, ?_⟩
  · intro s
    by_cases h : s.running <;>
      simp [CPUStressor.stop, h]
  · intro s
    rw [memStop_eq, memStop_eq]
    simp [MemoryStressor.releaseEvents, releasedRegions_releaseEvents,
          MemoryStressor.releasedRegions]
  · intro s files
    by_cases h : s.running <;>
      simp [DiskStressor.stop, h, (cleanup_fixpoint files).1, (cleanup_fixpoint files).2]
  · intro s rules
    by_cases h : s.running <;> by_cases h2 : s.tcRulesApplied <;>
      simp [NetworkStressor.stop, NetworkStressor.removeTcRules, h, h2]
  · intro s fs
    by_cases h : s.running <;>
      simp [ThermalStressor.stop, h, restoreAll]

theorem snapshotCores_noDup (fs : Sysfs) :
    ∀ (l : List Nat) (st : Settings), noDupKeys st →
      noDupKeys (CPUFreqManager.snapshotCores fs l st) := by
  intro l
  induction l with
  | nil => intro st h; exact h
  | cons c rest ih =>
    intro st h
    by_cases hp : CPUFreqManager.getCurrentMaxFreq fs c > 0 <;>
      simp [CPUFreqManager.snapshotCores, hp]
    · exact ih _ (noDupKeys_insertS _ _ _ h)
    · exact ih _ h

theorem snapshotCores_lookup_stable (fs : Sysfs) (cpu : Nat) :
    ∀ (l : List Nat) (st : Settings), (∀ c ∈ l, cpu ≠ c) →
      lookupS (CPUFreqManager.snapshotCores fs l st) (SysKey.scalingMax cpu) =
        lookupS st (SysKey.scalingMax cpu) := by
  intro l
  induction l with
  | nil => intro st _; rfl
  | cons c rest ih =>
    intro st h
    have hc : cpu ≠ c := h c (by simp)
    have hr : ∀ c2 ∈ rest, cpu ≠ c2 := fun c2 hm => h c2 (by simp [hm])
    have hkey : SysKey.scalingMax cpu ≠ SysKey.scalingMax c := by simp [hc]
    by_cases hp : CPUFreqManager.getCurrentMaxFreq fs c > 0 <;>
      simp [CPUFreqManager.snapshotCores, hp]
    · rw [ih _ hr, lookupS_insertS_ne _ _ _ _ hkey]
    · exact ih _ hr

theorem snapshotCores_lookup_mem (fs : Sysfs) (cpu : Nat) :
    ∀ (l : List Nat) (st : Settings), cpu ∈ l →
      CPUFreqManager.getCurrentMaxFreq fs cpu > 0 →
      lookupS (CPUFreqManager.snapshotCores fs l st) (SysKey.scalingMax cpu) =
        some (toString (CPUFreqManager.getCurrentMaxFreq fs cpu)) := by
  intro l
  induction l with
  | nil => intro st hm; exact absurd hm (by simp)
  | cons c rest ih =>
    intro st hm hp
    by_cases hr : cpu ∈ rest
    · by_cases hpc : CPUFreqManager.getCurrentMaxFreq fs c > 0 <;>
        simp [CPUFreqManager.snapshotCores, hpc] <;> exact ih _ hr hp
    · have hcpu : cpu = c := by
        rcases List.mem_cons.mp hm with h | h
        · exact h
        · exact absurd h hr
      subst hcpu
      have hst : ∀ c2 ∈ rest, cpu ≠ c2 := fun c2 h2 he => hr (he ▸ h2)
      simp [CPUFreqManager.snapshotCores, hp]
      rw [snapshotCores_lookup_stable fs cpu rest _ hst, lookupS_insertS_self]

/-- C3: in one limiting session (`isLimited_` false at the first call),
the per-core original snapshot is taken only by the first successful
`setMaxFrequency` call — the second call carries it forward unchanged —
and `restore()` writes back, for every core targeted by the first call
whose original ceiling parsed positive, the `scaling_max_freq` value that
was in effect before the F1 call, not the value in effect before the F2
call. -/
theorem setLimit_firstSnapshot_restores (numCores : Nat)
    (t1 t2 f1 f2 ar1 ar2 : Int) (cores1 cores2 : List Nat)
    (st : CPUFreqManagerState) (fs : Sysfs)
    (hnl : st.isLimited = false) :
    (CPUFreqManager.setMaxFrequency numCores t2 f2 cores2 ar2
        (CPUFreqManager.setMaxFrequency numCores t1 f1 cores1 ar1 st fs).2.1
        (CPUFreqManager.setMaxFrequency numCores t1 f1 cores1 ar1 st fs).2.2).2.1.originalSettings =
      (CPUFreqManager.setMaxFrequency numCores t1 f1 cores1 ar1 st fs).2.1.originalSettings ∧
    ∀ cpu ∈ (CPUFreqManager.setMaxFrequency numCores t1 f1 cores1 ar1 st fs).2.1.targetCores,
      CPUFreqManager.getCurrentMaxFreq fs cpu > 0 →
      (limitSession numCores t1 t2 f1 f2 ar1 ar2 cores1 cores2 st fs).2 (SysKey.scalingMax cpu) =
        toString (CPUFreqManager.getCurrentMaxFreq fs cpu) := by
  constructor
  · simp [CPUFreqManager.setMaxFrequency, hnl]
  · intro cpu hmem hpos
    have hmem2 : cpu ∈ (if cores1 = [] then List.range numCores else cores1) := by
      simpa [CPUFreqManager.setMaxFrequency, hnl] using hmem
    have hnodup : noDupKeys (CPUFreqManager.snapshotCores fs
        (if cores1 = [] then List.range numCores else cores1) []) :=
      snapshotCores_noDup fs _ [] trivial
    simp [limitSession, CPUFreqManager.setMaxFrequency, CPUFreqManager.restore, hnl]
    rw [restoreAll_lookup _ _ _ hnodup,
        snapshotCores_lookup_mem fs cpu _ [] hmem2 hpos]
    rfl

theorem forceOnlineStep_localized (c : Nat) (fs : Sysfs) (st : Settings) (k : SysKey)
    (h : k ≠ SysKey.online c) :
    (ThermalStressor.forceOnlineStep (fs, st) c).1 k = fs k ∧
    lookupS (ThermalStressor.forceOnlineStep (fs, st) c).2 k = lookupS st k := by
  constructor
  · by_cases hc : c = 0 <;>
      simp [ThermalStressor.forceOnlineStep, ThermalStressor.setCoreOnline, hc,
            writeSysFile, h]
  · by_cases he : readSysFile fs (SysKey.online c) = "" <;>
      simp [ThermalStressor.forceOnlineStep, he, lookupS_insertS_ne _ _ _ _ h]

theorem freqStep_localized (pct : Int) (c : Nat) (fs : Sysfs) (st : Settings) (k : SysKey)
    (h1 : k ≠ SysKey.governor c) (h2 : k ≠ SysKey.scalingMax c) :
    (ThermalStressor.freqStep pct (fs, st) c).1 k = fs k ∧
    lookupS (ThermalStressor.freqStep pct (fs, st) c).2 k = lookupS st k := by
  by_cases ho : ThermalStressor.isCoreOnline fs c
  · simp only [ThermalStressor.freqStep, ho, if_true]
    split_ifs <;>
      simp [writeSysFile, h1, h2, lookupS_insertS_ne _ _ _ _ h1,
            lookupS_insertS_ne _ _ _ _ h2]
  · simp [ThermalStressor.freqStep, ho]

theorem forceOnlineStep_noDup (c : Nat) (fs : Sysfs) (st : Settings)
    (h : noDupKeys st) :
    noDupKeys (ThermalStressor.forceOnlineStep (fs, st) c).2 := by
  by_cases he : readSysFile fs (SysKey.online c) = "" <;>
    simp [ThermalStressor.forceOnlineStep, he, h, noDupKeys_insertS _ _ _ h]

theorem freqStep_noDup (pct : Int) (c : Nat) (fs : Sysfs) (st : Settings)
    (h : noDupKeys st) :
    noDupKeys (ThermalStressor.freqStep pct (fs, st) c).2 := by
  by_cases ho : ThermalStressor.isCoreOnline fs c
  · simp only [ThermalStressor.freqStep, ho, if_true]
    split_ifs <;>
      simp [h, noDupKeys_insertS, noDupKeys_insertS _ _ _ (noDupKeys_insertS _ _ _ h)]
  · simpa [ThermalStressor.freqStep, ho] using h

theorem forceOnlineFold_untouched (k : SysKey) :
    ∀ (l : List Nat) (fs : Sysfs) (st : Settings),
      (∀ c ∈ l, k ≠ SysKey.online c) →
      ((l.foldl ThermalStressor.forceOnlineStep (fs, st)).1 k = fs k ∧
       lookupS (l.foldl ThermalStressor.forceOnlineStep (fs, st)).2 k = lookupS st k) := by
  intro l
  induction l with
  | nil => intro fs st _; exact ⟨rfl, rfl⟩
  | cons c rest ih =>
    intro fs st h
    have hc := h c (by simp)
    have hr : ∀ c2 ∈ rest, k ≠ SysKey.online c2 := fun c2 hm => h c2 (by simp [hm])
    have hstep := forceOnlineStep_localized c fs st k hc
    have hfold := ih (ThermalStressor.forceOnlineStep (fs, st) c).1
      (ThermalStressor.forceOnlineStep (fs, st) c).2 hr
    constructor
    · calc (List.foldl ThermalStressor.forceOnlineStep
            (ThermalStressor.forceOnlineStep (fs, st) c) rest).1 k
          = (ThermalStressor.forceOnlineStep (fs, st) c).1 k := by
            simpa using hfold.1
        _ = fs k := hstep.1
    · calc lookupS (List.foldl ThermalStressor.forceOnlineStep
            (ThermalStressor.forceOnlineStep (fs, st) c) rest).2 k
          = lookupS (ThermalStressor.forceOnlineStep (fs, st) c).2 k := by
            simpa using hfold.2
        _ = lookupS st k := hstep.2

theorem freqFold_untouched (pct : Int) (k : SysKey) :
    ∀ (l : List Nat) (fs : Sysfs) (st : Settings),
      (∀ c ∈ l, k ≠ SysKey.governor c ∧ k ≠ SysKey.scalingMax c) →
      ((l.foldl (ThermalStressor.freqStep pct) (fs, st)).1 k = fs k ∧
       lookupS (l.foldl (ThermalStressor.freqStep pct) (fs, st)).2 k = lookupS st k) := by
  intro l
  induction l with
  | nil => intro fs st _; exact ⟨rfl, rfl⟩
  | cons c rest ih =>
    intro fs st h
    have hc := h c (by simp)
    have hr : ∀ c2 ∈ rest, k ≠ SysKey.governor c2 ∧ k ≠ SysKey.scalingMax c2 :=
      fun c2 hm => h c2 (by simp [hm])
    have hstep := freqStep_localized pct c fs st k hc.1 hc.2
    have hfold := ih (ThermalStressor.freqStep pct (fs, st) c).1
      (ThermalStressor.freqStep pct (fs, st) c).2 hr
    constructor
    · calc (List.foldl (ThermalStressor.freqStep pct)
            (ThermalStressor.freqStep pct (fs, st) c) rest).1 k
          = (ThermalStressor.freqStep pct (fs, st) c).1 k := by simpa using hfold.1
        _ = fs k := hstep.1
    · calc lookupS (List.foldl (ThermalStressor.freqStep pct)
            (ThermalStressor.freqStep pct (fs, st) c) rest).2 k
          = lookupS (ThermalStressor.freqStep pct (fs, st) c).2 k := by
            simpa using hfold.2
        _ = lookupS st k := hstep.2

theorem forceOnlineFold_noDup :
    ∀ (l : List Nat) (fs : Sysfs) (st : Settings), noDupKeys st →
      noDupKeys (l.foldl ThermalStressor.forceOnlineStep (fs, st)).2 := by
  intro l
  induction l with
  | nil => intro fs st h; exact h
  | cons c rest ih =>
    intro fs st h
    have := ih (ThermalStressor.forceOnlineStep (fs, st) c).1
      (ThermalStressor.forceOnlineStep (fs, st) c).2 (forceOnlineStep_noDup c fs st h)
    simpa using this

theorem freqFold_noDup (pct : Int) :
    ∀ (l : List Nat) (fs : Sysfs) (st : Settings), noDupKeys st →
      noDupKeys (l.foldl (ThermalStressor.freqStep pct) (fs, st)).2 := by
  intro l
  induction l with
  | nil => intro fs st h; exact h
  | cons c rest ih =>
    intro fs st h
    have := ih (ThermalStressor.freqStep pct (fs, st) c).1
      (ThermalStressor.freqStep pct (fs, st) c).2 (freqStep_noDup pct c fs st h)
    simpa using this

theorem getMaxFrequency_congr (f g : Sysfs) (cpu : Nat)
    (h : f (SysKey.cpuinfoMax cpu) = g (SysKey.cpuinfoMax cpu)) :
    ThermalStressor.getMaxFrequency f cpu = ThermalStressor.getMaxFrequency g cpu := by
  simp [ThermalStressor.getMaxFrequency, readSysFile, h]

theorem forceOnlineFold_snapshot (cpu : Nat) :
    ∀ (l : List Nat), l.Nodup → ∀ (fs : Sysfs) (st : Settings) (v : String),
      lookupS (l.foldl ThermalStressor.forceOnlineStep (fs, st)).2 (SysKey.online cpu) = some v →
      v = fs (SysKey.online cpu) ∨ lookupS st (SysKey.online cpu) = some v := by
  intro l
  induction l with
  | nil => intro _ fs st v h; exact Or.inr h
  | cons c rest ih =>
    intro hnd fs st v h
    obtain ⟨hcr, hnd2⟩ := List.nodup_cons.mp hnd
    rw [List.foldl_cons] at h
    by_cases hcc : cpu = c
    · subst hcc
      have hstable : ∀ c2 ∈ rest, SysKey.online cpu ≠ SysKey.online c2 := by
        intro c2 hm
        simp only [ne_eq, SysKey.online.injEq]
        intro he; exact hcr (he ▸ hm)
      have heq : lookupS (List.foldl ThermalStressor.forceOnlineStep
          (ThermalStressor.forceOnlineStep (fs, st) cpu) rest).2 (SysKey.online cpu) =
          lookupS (ThermalStressor.forceOnlineStep (fs, st) cpu).2 (SysKey.online cpu) := by
        simpa using (forceOnlineFold_untouched (SysKey.online cpu) rest
          (ThermalStressor.forceOnlineStep (fs, st) cpu).1
          (ThermalStressor.forceOnlineStep (fs, st) cpu).2 hstable).2
      rw [heq] at h
      by_cases he : readSysFile fs (SysKey.online cpu) = ""
      · exact Or.inr (by simpa [ThermalStressor.forceOnlineStep, he] using h)
      · refine Or.inl ?_
        have h3 : lookupS (insertS st (SysKey.online cpu)
            (readSysFile fs (SysKey.online cpu))) (SysKey.online cpu) = some v := by
          simpa [ThermalStressor.forceOnlineStep, he] using h
        rw [lookupS_insertS_self] at h3
        exact (Option.some.inj h3).symm
    · have hkey : SysKey.online cpu ≠ SysKey.online c := by simp [hcc]
      have hstep := forceOnlineStep_localized c fs st (SysKey.online cpu) hkey
      have h4 : lookupS (List.foldl ThermalStressor.forceOnlineStep
          ((ThermalStressor.forceOnlineStep (fs, st) c).1,
           (ThermalStressor.forceOnlineStep (fs, st) c).2) rest).2
          (SysKey.online cpu) = some v := by simpa using h
      rcases ih hnd2 _ _ v h4 with h5 | h5
      · exact Or.inl (h5.trans hstep.1)
      · exact Or.inr (hstep.2 ▸ h5)

theorem freqFold_governor (pct : Int) (cpu : Nat) :
    ∀ (l : List Nat), l.Nodup → ∀ (fs : Sysfs) (st : Settings) (v : String),
      lookupS (l.foldl (ThermalStressor.freqStep pct) (fs, st)).2 (SysKey.governor cpu) = some v →
      v = fs (SysKey.governor cpu) ∨ lookupS st (SysKey.governor cpu) = some v := by
  intro l
  induction l with
  | nil => intro _ fs st v h; exact Or.inr h
  | cons c rest ih =>
    intro hnd fs st v h
    obtain ⟨hcr, hnd2⟩ := List.nodup_cons.mp hnd
    rw [List.foldl_cons] at h
    by_cases hcc : cpu = c
    · subst hcc
      have hstable : ∀ c2 ∈ rest,
          SysKey.governor cpu ≠ SysKey.governor c2 ∧
          SysKey.governor cpu ≠ SysKey.scalingMax c2 := by
        intro c2 hm
        refine ⟨?_, by simp⟩
        simp only [ne_eq, SysKey.governor.injEq]
        intro he; exact hcr (he ▸ hm)
      have heq : lookupS (List.foldl (ThermalStressor.freqStep pct)
          (ThermalStressor.freqStep pct (fs, st) cpu) rest).2 (SysKey.governor cpu) =
          lookupS (ThermalStressor.freqStep pct (fs, st) cpu).2 (SysKey.governor cpu) := by
        simpa using (freqFold_untouched pct (SysKey.governor cpu) rest
          (ThermalStressor.freqStep pct (fs, st) cpu).1
          (ThermalStressor.freqStep pct (fs, st) cpu).2 hstable).2
      rw [heq] at h
      by_cases ho : ThermalStressor.isCoreOnline fs cpu
      · simp only [ThermalStressor.freqStep, ho, if_true] at h
        by_cases hg : readSysFile fs (SysKey.governor cpu) = ""
        · refine Or.inr ?_
          simp only [hg, ne_eq, not_true_eq_false, if_false] at h
          split_ifs at h
          · rwa [lookupS_insertS_ne _ _ _ _ (by simp)] at h
          · exact h
        · refine Or.inl ?_
          simp only [hg, ne_eq, not_false_eq_true, if_true] at h
          split_ifs at h
          · rw [lookupS_insertS_ne _ _ _ _ (by simp), lookupS_insertS_self] at h
            exact (Option.some.inj h).symm
          · rw [lookupS_insertS_self] at h
            exact (Option.some.inj h).symm
      · exact Or.inr (by simpa [ThermalStressor.freqStep, ho] using h)
    · have hkey1 : SysKey.governor cpu ≠ SysKey.governor c := by simp [hcc]
      have hkey2 : SysKey.governor cpu ≠ SysKey.scalingMax c := by simp
      have hstep := freqStep_localized pct c fs st (SysKey.governor cpu) hkey1 hkey2
      have h4 : lookupS (List.foldl (ThermalStressor.freqStep pct)
          ((ThermalStressor.freqStep pct (fs, st) c).1,
           (ThermalStressor.freqStep pct (fs, st) c).2) rest).2
          (SysKey.governor cpu) = some v := by simpa using h
      rcases ih hnd2 _ _ v h4 with h5 | h5
      · exact Or.inl (h5.trans hstep.1)
      · exact Or.inr (hstep.2 ▸ h5)

theorem freqFold_scalingMax (pct : Int) (cpu : Nat) :
    ∀ (l : List Nat), l.Nodup → ∀ (fs : Sysfs) (st : Settings) (v : String),
      lookupS (l.foldl (ThermalStressor.freqStep pct) (fs, st)).2 (SysKey.scalingMax cpu) = some v →
      v = toString (ThermalStressor.getMaxFrequency fs cpu) ∨
        lookupS st (SysKey.scalingMax cpu) = some v := by
  intro l
  induction l with
  | nil => intro _ fs st v h; exact Or.inr h
  | cons c rest ih =>
    intro hnd fs st v h
    obtain ⟨hcr, hnd2⟩ := List.nodup_cons.mp hnd
    rw [List.foldl_cons] at h
    by_cases hcc : cpu = c
    · subst hcc
      have hstable : ∀ c2 ∈ rest,
          SysKey.scalingMax cpu ≠ SysKey.governor c2 ∧
          SysKey.scalingMax cpu ≠ SysKey.scalingMax c2 := by
        intro c2 hm
        refine ⟨by simp, ?_⟩
        simp only [ne_eq, SysKey.scalingMax.injEq]
        intro he; exact hcr (he ▸ hm)
      have heq : lookupS (List.foldl (ThermalStressor.freqStep pct)
          (ThermalStressor.freqStep pct (fs, st) cpu) rest).2 (SysKey.scalingMax cpu) =
          lookupS (ThermalStressor.freqStep pct (fs, st) cpu).2 (SysKey.scalingMax cpu) := by
        simpa using (freqFold_untouched pct (SysKey.scalingMax cpu) rest
          (ThermalStressor.freqStep pct (fs, st) cpu).1
          (ThermalStressor.freqStep pct (fs, st) cpu).2 hstable).2
      rw [heq] at h
      have hmaxeq : ThermalStressor.getMaxFrequency
          (writeSysFile (SysKey.governor cpu) "performance" fs) cpu =
          ThermalStressor.getMaxFrequency fs cpu :=
        getMaxFrequency_congr _ _ cpu (by simp [writeSysFile])
      by_cases ho : ThermalStressor.isCoreOnline fs cpu
      · by_cases hg : readSysFile fs (SysKey.governor cpu) = "" <;>
          by_cases hf : ThermalStressor.getMaxFrequency
            (writeSysFile (SysKey.governor cpu) "performance" fs) cpu > 0 ∧ pct < 100
        · refine Or.inl ?_
          simp [ThermalStressor.freqStep, ho, hg, hf, lookupS_insertS_self] at h
          rw [← hmaxeq]
          exact h.symm
        · refine Or.inr ?_
          simpa [ThermalStressor.freqStep, ho, hg, hf] using h
        · refine Or.inl ?_
          simp [ThermalStressor.freqStep, ho, hg, hf, lookupS_insertS_self] at h
          rw [← hmaxeq]
          exact h.symm
        · refine Or.inr ?_
          have h2 := h
          simp [ThermalStressor.freqStep, ho, hg, hf] at h2
          rwa [lookupS_insertS_ne _ _ _ _ (by simp)] at h2
      · exact Or.inr (by simpa [ThermalStressor.freqStep, ho] using h)
    · have hkey1 : SysKey.scalingMax cpu ≠ SysKey.governor c := by simp
      have hkey2 : SysKey.scalingMax cpu ≠ SysKey.scalingMax c := by simp [hcc]
      have hstep := freqStep_localized pct c fs st (SysKey.scalingMax cpu) hkey1 hkey2
      have hstepinfo := freqStep_localized pct c fs st (SysKey.cpuinfoMax cpu)
        (by simp) (by simp)
      have h4 : lookupS (List.foldl (ThermalStressor.freqStep pct)
          ((ThermalStressor.freqStep pct (fs, st) c).1,
           (ThermalStressor.freqStep pct (fs, st) c).2) rest).2
          (SysKey.scalingMax cpu) = some v := by simpa using h
      rcases ih hnd2 _ _ v h4 with h5 | h5
      · refine Or.inl ?_
        rw [h5]
        congr 1
        exact getMaxFrequency_congr _ _ cpu hstepinfo.1
      · exact Or.inr (hstep.2 ▸ h5)

theorem applyPhase1_noDup (n : Nat) (cfg : ThermalStressConfig) (fs : Sysfs) :
    noDupKeys (ThermalStressor.applyPhase1 n cfg fs).2 := by
  by_cases hfa : cfg.forceAllCoresOnline
  · simpa [ThermalStressor.applyPhase1, hfa] using
      forceOnlineFold_noDup (List.range' 1 (n - 1)) fs [] trivial
  · simp [ThermalStressor.applyPhase1, hfa, noDupKeys]

theorem applyPhase1_untouched (n : Nat) (cfg : ThermalStressConfig) (fs : Sysfs)
    (k : SysKey) (h : ∀ c : Nat, k ≠ SysKey.online c) :
    (ThermalStressor.applyPhase1 n cfg fs).1 k = fs k ∧
    lookupS (ThermalStressor.applyPhase1 n cfg fs).2 k = none := by
  by_cases hfa : cfg.forceAllCoresOnline
  · have h2 := forceOnlineFold_untouched k (List.range' 1 (n - 1)) fs [] (fun c _ => h c)
    constructor
    · simpa [ThermalStressor.applyPhase1, hfa] using h2.1
    · simpa [ThermalStressor.applyPhase1, hfa, lookupS] using h2.2
  · simp [ThermalStressor.applyPhase1, hfa, lookupS]

theorem applyPhase1_online (n : Nat) (cfg : ThermalStressConfig) (fs : Sysfs)
    (cpu : Nat) (v : String)
    (h : lookupS (ThermalStressor.applyPhase1 n cfg fs).2 (SysKey.online cpu) = some v) :
    v = fs (SysKey.online cpu) := by
  by_cases hfa : cfg.forceAllCoresOnline
  · have h2 : lookupS ((List.range' 1 (n - 1)).foldl ThermalStressor.forceOnlineStep
        (fs, ([] : Settings))).2 (SysKey.online cpu) = some v := by
      simpa [ThermalStressor.applyPhase1, hfa] using h
    rcases forceOnlineFold_snapshot cpu (List.range' 1 (n - 1))
        (List.nodup_range' 1 (n - 1) 1 (by norm_num)) fs [] v h2 with h3 | h3
    · exact h3
    · simp [lookupS] at h3
  · simp [ThermalStressor.applyPhase1, hfa, lookupS] at h

/-- C2 amended: in every thermal run, every snapshotted per-core online
state and governor is saved with its pre-perturbation value and restored
to it on stop; the scaling max-frequency ceiling, however, is snapshotted
as the core's *hardware maximum* (`cpuinfo_max_freq`), not as its
pre-perturbation value, so on stop the ceiling is set to the hardware
maximum — which equals its pre-start value only when the ceiling was
uncapped at start. -/
theorem thermal_snapshotRestore (numCores : Nat) (cfg : ThermalStressConfig) (fs : Sysfs) :
    noDupKeys (ThermalStressor.applySettings numCores cfg fs).2 ∧
    (∀ (cpu : Nat) (v : String),
      lookupS (ThermalStressor.applySettings numCores cfg fs).2 (SysKey.online cpu) = some v →
        v = fs (SysKey.online cpu) ∧
        restoreAll (ThermalStressor.applySettings numCores cfg fs).2
          (ThermalStressor.applySettings numCores cfg fs).1 (SysKey.online cpu) =
            fs (SysKey.online cpu)) ∧
    (∀ (cpu : Nat) (v : String),
      lookupS (ThermalStressor.applySettings numCores cfg fs).2 (SysKey.governor cpu) = some v →
        v = fs (SysKey.governor cpu) ∧
        restoreAll (ThermalStressor.applySettings numCores cfg fs).2
          (ThermalStressor.applySettings numCores cfg fs).1 (SysKey.governor cpu) =
            fs (SysKey.governor cpu)) ∧
    (∀ (cpu : Nat) (v : String),
      lookupS (ThermalStressor.applySettings numCores cfg fs).2 (SysKey.scalingMax cpu) = some v →
        v = toString (ThermalStressor.getMaxFrequency fs cpu) ∧
        restoreAll (ThermalStressor.applySettings numCores cfg fs).2
          (ThermalStressor.applySettings numCores cfg fs).1 (SysKey.scalingMax cpu) =
            toString (ThermalStressor.getMaxFrequency fs cpu)) := by
  have hnodup : noDupKeys (ThermalStressor.applySettings numCores cfg fs).2 := by
    simpa [ThermalStressor.applySettings] using
      freqFold_noDup cfg.maxFrequencyPercent (List.range numCores)
        (ThermalStressor.applyPhase1 numCores cfg fs).1
        (ThermalStressor.applyPhase1 numCores cfg fs).2
        (applyPhase1_noDup numCores cfg fs)
  have hrestore : ∀ (k : SysKey) (v : String),
      lookupS (ThermalStressor.applySettings numCores cfg fs).2 k = some v →
      restoreAll (ThermalStressor.applySettings numCores cfg fs).2
        (ThermalStressor.applySettings numCores cfg fs).1 k = v := by
    intro k v hk
    rw [restoreAll_lookup _ _ _ hnodup, hk]
    rfl
  refine ⟨hnodup, ?_, ?_, ?_⟩
  · intro cpu v h
    have h2 : lookupS ((List.range numCores).foldl
        (ThermalStressor.freqStep cfg.maxFrequencyPercent)
        ((ThermalStressor.applyPhase1 numCores cfg fs).1,
         (ThermalStressor.applyPhase1 numCores cfg fs).2)).2 (SysKey.online cpu) = some v := by
      simpa [ThermalStressor.applySettings] using h
    rw [(freqFold_untouched cfg.maxFrequencyPercent (SysKey.online cpu)
        (List.range numCores) _ _ (fun c _ => ⟨by simp, by simp⟩)).2] at h2
    have hv := applyPhase1_online numCores cfg fs cpu v h2
    exact ⟨hv, (hrestore _ _ h).trans hv⟩
  · intro cpu v h
    have h2 : lookupS ((List.range numCores).foldl
        (ThermalStressor.freqStep cfg.maxFrequencyPercent)
        ((ThermalStressor.applyPhase1 numCores cfg fs).1,
         (ThermalStressor.applyPhase1 numCores cfg fs).2)).2 (SysKey.governor cpu) = some v := by
      simpa [ThermalStressor.applySettings] using h
    rcases freqFold_governor cfg.maxFrequencyPercent cpu (List.range numCores)
        (List.nodup_range numCores) _ _ v h2 with h3 | h3
    · have hfs := (applyPhase1_untouched numCores cfg fs (SysKey.governor cpu)
        (fun c => by simp)).1
      have hv := h3.trans hfs
      exact ⟨hv, (hrestore _ _ h).trans hv⟩
    · rw [(applyPhase1_untouched numCores cfg fs (SysKey.governor cpu)
        (fun c => by simp)).2] at h3
      cases h3
  · intro cpu v h
    have h2 : lookupS ((List.range numCores).foldl
        (ThermalStressor.freqStep cfg.maxFrequencyPercent)
        ((ThermalStressor.applyPhase1 numCores cfg fs).1,
         (ThermalStressor.applyPhase1 numCores cfg fs).2)).2 (SysKey.scalingMax cpu) = some v := by
      simpa [ThermalStressor.applySettings] using h
    rcases freqFold_scalingMax cfg.maxFrequencyPercent cpu (List.range numCores)
        (List.nodup_range numCores) _ _ v h2 with h3 | h3
    · have hfs := (applyPhase1_untouched numCores cfg fs (SysKey.cpuinfoMax cpu)
        (fun c => by simp)).1
      have hv : v = toString (ThermalStressor.getMaxFrequency fs cpu) := by
        rw [h3]
        congr 1
        exact getMaxFrequency_congr _ _ cpu hfs
      exact ⟨hv, (hrestore _ _ h).trans hv⟩
    · rw [(applyPhase1_untouched numCores cfg fs (SysKey.scalingMax cpu)
        (fun c => by simp)).2] at h3
      cases h3

/-- C2 counterexample: on `fsA` — cpu0's ceiling capped at 1500000, its
hardware maximum 2000000 — the thermal run snapshots the overwritten
`scaling_max_freq` as "2000000" (the hardware max, not the
pre-perturbation "1500000"), and after the restore on stop the file holds
"2000000", not its pre-start value. -/
theorem thermal_snapshot_counterexample :
    fsA (SysKey.scalingMax 0) = "1500000" ∧
    (ThermalStressor.applySettings 2 thermalCfgA fsA).1 (SysKey.scalingMax 0) = "1150000" ∧
    lookupS (ThermalStressor.applySettings 2 thermalCfgA fsA).2 (SysKey.scalingMax 0) =
      some "2000000" ∧
    restoreAll (ThermalStressor.applySettings 2 thermalCfgA fsA).2
      (ThermalStressor.applySettings 2 thermalCfgA fsA).1 (SysKey.scalingMax 0) = "2000000" := by
  refine ⟨rfl, ?_, ?_, ?_⟩ <;> decide

/-- Closed witness for C2's amended theorem: the snapshotted governor and
online state of `fsA` are restored to their pre-start values. -/
theorem thermal_snapshotRestore_witness :
    lookupS (ThermalStressor.applySettings 2 thermalCfgA fsA).2 (SysKey.governor 0) =
      some "schedutil" ∧
    restoreAll (ThermalStressor.applySettings 2 thermalCfgA fsA).2
      (ThermalStressor.applySettings 2 thermalCfgA fsA).1 (SysKey.governor 0) =
      fsA (SysKey.governor 0) ∧
    restoreAll (ThermalStressor.applySettings 2 thermalCfgA fsA).2
      (ThermalStressor.applySettings 2 thermalCfgA fsA).1 (SysKey.online 1) =
      fsA (SysKey.online 1) :=
  have h := thermal_snapshotRestore 2 thermalCfgA fsA
  ⟨by decide,
   (h.2.2.1 0 "schedutil" (by decide)).2,
   (h.2.1 1 "0" (by decide)).2⟩

/-- Closed witness for C3: on `fsA` (cpu0 capped at 1500000 before the
session) a `setLimit(800000)`, `setLimit(600000)`, `restore()` session
leaves cpu0's ceiling at its pre-session 1500000. -/
theorem setLimit_firstSnapshot_restores_witness :
    CPUFreqManager.getCurrentMaxFreq fsA 0 > 0 ∧
    (limitSession 2 10 20 800000 600000 0 0 [] [] freqIdleA fsA).2 (SysKey.scalingMax 0) =
      toString (CPUFreqManager.getCurrentMaxFreq fsA 0) :=
  ⟨by decide,
   (setLimit_firstSnapshot_restores 2 10 20 800000 600000 0 0 [] [] freqIdleA fsA rfl).2 0
     (by decide) (by decide)⟩

end DANR
